import Mathlib

set_option maxRecDepth 100000

/-!
Verification of `peas/tasks/targetweights.py` (`TargetWeightsTask`).

The module is shallowly embedded over exact rationals: numpy float arrays
become `List ℚ` / functions into `ℚ`, exceptions become `Except` values, and
the ambient random draws of the noise step (`np.random.random`) become two
explicit input streams `rnd1 rnd2 : List Nat → ℚ` indexed by tensor position
(a draw of `np.random.random` lies in `[0, 1)`).

`numpy.linalg.lstsq(A, b)` is modelled by its documented observable
behaviour: the solution minimises `‖A·x − b‖²` (computed here by Gaussian
elimination on the normal equations, which agrees with numpy's SVD solution
whenever `A` has full column rank), and the returned residual array is
nonempty exactly when `rank A = n` and `m > n`; `evaluate` reads `res[0]`,
which is an IndexError when that array is empty.

The `NeuralNetwork` wrapper lives in `peas/networks/rnn.py`, which is not
part of the given sources.  Modelled from the spec: per spec §6 the evaluator
consumes the candidate as "an opaque square numeric matrix", so a candidate
is its connectivity matrix `cm` (stored flat in row-major order) together
with its shape, and the adapter step is the identity on the matrix.
-/

/-- `np.product` of a shape. -/
def prodList (l : List Nat) : Nat := l.foldl (· * ·) 1

/-- Row-major unflattening of a flat index into a multi-index over `dims`,
the inverse of numpy's row-major (C-order) `reshape`/`flat` convention. -/
def unflatten : List Nat → Nat → List Nat
  | [], _ => []
  | _ :: ds, f => (f / prodList ds) :: unflatten ds (f % prodList ds)

/-- Entry `k` of the `np.mgrid` axis built from `slice(-1, 1, s*1j)`,
i.e. of `np.linspace(-1, 1, s)`; a single-point axis sits at `-1`. -/
def linVal (s k : Nat) : ℚ := if s ≤ 1 then -1 else -1 + 2 * (k : ℚ) / ((s : ℚ) - 1)

/-- The coordinate vector of one grid position: component `i` is axis `i` of
the mgrid coordinate tensor evaluated at the multi-index (`coords[i][idx]`,
and `idx[i]` is the only component axis `i` depends on). -/
def coordsVec (cmShape idx : List Nat) : List ℚ := List.zipWith linVal cmShape idx

/-- `self.locs`: `coords.transpose(range(1, 2D+1) + [0]).reshape(-1, 2D)`,
one row of 2D coordinates per (source, target) connection, in row-major
order over the flattened connectivity tensor. -/
def locsMat (cmShape : List Nat) : List (List ℚ) :=
  (List.range (prodList cmShape)).map fun f => coordsVec cmShape (unflatten cmShape f)

/-- Dot product of two rational vectors. -/
def dotQ (a b : List ℚ) : ℚ := (List.zipWith (· * ·) a b).sum

/-- Number of columns of a (rectangular) rational matrix given as rows. -/
def colsOf (A : List (List ℚ)) : Nat := (A.headD []).length

/-- Transpose of a rectangular rational matrix. -/
def transposeQ (A : List (List ℚ)) : List (List ℚ) :=
  (List.range (colsOf A)).map fun j => A.map fun row => row.getD j 0

/-- Matrix-vector product. -/
def matVec (A : List (List ℚ)) (x : List ℚ) : List ℚ := A.map fun row => dotQ row x

/-- Matrix-matrix product. -/
def matMulQ (A B : List (List ℚ)) : List (List ℚ) :=
  A.map fun row => (transposeQ B).map fun col => dotQ row col

/-- Find a row with nonzero leading entry; return it and the remaining rows. -/
def findPivotRow : List (List ℚ) → Option (List ℚ × List (List ℚ))
  | [] => none
  | r :: rs =>
    if r.headD 0 ≠ 0 then some (r, rs)
    else
      match findPivotRow rs with
      | some (p, rest) => some (p, r :: rest)
      | none => none

/-- Gaussian elimination with back substitution on an augmented square system
(each row is a matrix row with the right-hand side appended).  Returns `none`
exactly when a zero pivot column is hit, i.e. when the matrix is singular.
The fuel argument is the number of rows; each step removes one row. -/
def solveAugFuel : Nat → List (List ℚ) → Option (List ℚ)
  | _, [] => some []
  | 0, _ :: _ => none
  | fuel + 1, r :: rs =>
    match findPivotRow (r :: rs) with
    | none => none
    | some (p, rest) =>
      let pn := p.map (· / p.headD 0)
      let rest2 := rest.map fun s => (List.zipWith (fun si pi => si - s.headD 0 * pi) s pn).tail
      match solveAugFuel fuel rest2 with
      | none => none
      | some xs => some ((pn.tail.getLastD 0 - dotQ pn.tail.dropLast xs) :: xs)

/-- Solve a square linear system given by augmented rows. -/
def solveAug (rows : List (List ℚ)) : Option (List ℚ) := solveAugFuel rows.length rows

/-- Model of `numpy.linalg.lstsq(A, b)` as observed by `evaluate`: numpy
returns a nonempty residual array exactly when `rank A = n` and `m > n`
(otherwise `res[0]` is an IndexError, the `none` case here), and in that
case the solution solves the normal equations `AᵀA x = Aᵀb` (computed by
exact Gaussian elimination, which succeeds iff `AᵀA` is invertible, i.e. iff
`A` has full column rank) and the residue is `‖A·x − b‖²`. -/
def lstsqModel (A : List (List ℚ)) (b : List ℚ) : Option (List ℚ × ℚ) :=
  if A.length ≤ colsOf A then none
  else
    match solveAug (List.zipWith (fun row v => row ++ [v])
        (matMulQ (transposeQ A) A) (matVec (transposeQ A) b)) with
    | none => none
    | some x => some (x, (List.zipWith (fun p v => (p - v) ^ 2) (matVec A x) b).sum)

/-- An override rule `(where, what)` from the `funcs` list.  A callable
`where` is a Lean function of the coordinate tensor producing a boolean mask
(indexed by multi-index); a non-callable `where` (`none`) is the all-true
mask `np.ones(cm.shape, dtype=bool)`.  A callable `what` is a function of
the coordinate tensor and the current connectivity tensor; a non-callable
`what` is the constant broadcast `what * np.ones(cm.shape)`. -/
structure Rule where
  whereFn : Option ((List Nat → List ℚ) → List Nat → Bool)
  whatFn : ((List Nat → List ℚ) → (List Nat → ℚ) → List Nat → ℚ) ⊕ ℚ

/-- `mask = where(coords) if callable(where) else np.ones(cm.shape, bool)`. -/
def maskOf (r : Rule) (coords : List Nat → List ℚ) (idx : List Nat) : Bool :=
  match r.whereFn with
  | some w => w coords idx
  | none => true

/-- `vals = what(coords, cm) if callable(what) else what * np.ones(cm.shape)`. -/
def valsOf (r : Rule) (coords : List Nat → List ℚ) (cm : List Nat → ℚ) (idx : List Nat) : ℚ :=
  match r.whatFn with
  | Sum.inl f => f coords cm idx
  | Sum.inr c => c

/-- The masked assignment `cm[mask] = vals[mask]` for one rule. -/
def applyRule (coords : List Nat → List ℚ) (cm : List Nat → ℚ) (r : Rule) : List Nat → ℚ :=
  fun idx => if maskOf r coords idx then valsOf r coords cm idx else cm idx

/-- `np.clip(x, lo, hi)`. -/
def clipQ (x lo hi : ℚ) : ℚ := min hi (max x lo)

/-- The state of a constructed `TargetWeightsTask`: the three configuration
attributes assigned at the top of `__init__`, plus the location table and
the clipped square target matrix (side `targetN`, stored flat row-major). -/
structure TargetWeightsTask where
  substrate_shape : List Nat
  max_weight : ℚ
  fitnessmeasure : String
  locs : List (List ℚ)
  targetN : Nat
  target : List ℚ
  deriving DecidableEq

/-- The body of `__init__` after the noise check: build the coordinate
system, apply the override rules in list order, inject noise (the two
random draws per entry are the explicit streams `rnd1`, `rnd2`), reshape to
a square matrix and clip to `[-max_weight, max_weight]`. -/
def buildTask (default_weight : ℚ) (substrate_shape : List Nat) (noise max_weight : ℚ)
    (funcs : List Rule) (fitnessmeasure : String) (rnd1 rnd2 : List Nat → ℚ) :
    TargetWeightsTask :=
  let cmShape := substrate_shape ++ substrate_shape
  let coords := coordsVec cmShape
  let cm0 : List Nat → ℚ := fun _ => default_weight
  let cmRules := funcs.foldl (applyRule coords) cm0
  let cmNoise : List Nat → ℚ := fun idx =>
    if rnd1 idx < noise then rnd2 idx * max_weight * 2 - max_weight else cmRules idx
  let n := prodList substrate_shape
  { substrate_shape := substrate_shape
    max_weight := max_weight
    fitnessmeasure := fitnessmeasure
    locs := locsMat cmShape
    targetN := n
    target := (List.range (n * n)).map fun f =>
      clipQ (cmNoise (unflatten cmShape f)) (-max_weight) max_weight }

/-- Which instance attributes have been assigned at a given point of
`__init__` (used to observe the state of the partially constructed object
when the noise check raises). -/
structure PartialState where
  substrate_shape : Option (List Nat)
  max_weight : Option ℚ
  fitnessmeasure : Option String
  locs : Option (List (List ℚ))
  target : Option (List ℚ)
  deriving DecidableEq

/-- The attributes assigned before the noise precondition check:
`substrate_shape`, `max_weight` and `fitnessmeasure` are set, `locs` and
`target` are not yet. -/
def preCheckState (shape : List Nat) (mw : ℚ) (mode : String) : PartialState :=
  { substrate_shape := some shape, max_weight := some mw, fitnessmeasure := some mode,
    locs := none, target := none }

/-- `__init__`: assigns the three configuration attributes, then checks
`0 <= noise <= 1` and raises (carrying the partially assigned state) on
violation, otherwise builds the target matrix and location table. -/
def TargetWeightsTask.init (default_weight : ℚ) (substrate_shape : List Nat)
    (noise max_weight : ℚ) (funcs : List Rule) (fitnessmeasure : String)
    (rnd1 rnd2 : List Nat → ℚ) : Except (String × PartialState) TargetWeightsTask :=
  if 0 ≤ noise ∧ noise ≤ 1 then
    .ok (buildTask default_weight substrate_shape noise max_weight funcs fitnessmeasure
      rnd1 rnd2)
  else
    .error ("Noise value has to be between 0 and 1.",
      preCheckState substrate_shape max_weight fitnessmeasure)

/-- Modelled from the spec: the `NeuralNetwork` adapter of
`peas/networks/rnn.py` is absent from the given sources; per spec §6 the
evaluator consumes the candidate as an opaque square numeric matrix, so a
candidate is its connectivity matrix `cm` (flat, row-major) with its shape. -/
structure NeuralNetwork where
  rows : Nat
  cols : Nat
  cm : List ℚ
  deriving DecidableEq

/-- The failures `evaluate` can raise, in the order the code can hit them:
the explicit shape check, numpy's LinAlgError for incompatible `lstsq`
operand heights, the IndexError of `res[0]` on an empty residual array, and
Python's UnboundLocalError when no fitness branch assigned `fitness`. -/
inductive EvalError where
  | shapeMismatch (netShape targetShape : Nat × Nat)
  | incompatibleDims
  | indexErrorResidue
  | unboundLocalFitness
  deriving DecidableEq

/-- `diff = np.abs(network.cm - self.target)`, flattened. -/
def diffListOf (t : TargetWeightsTask) (net : NeuralNetwork) : List ℚ :=
  List.zipWith (fun a b => |a - b|) net.cm t.target

/-- `err = ((network.cm - self.target) ** 2).sum()`. -/
def errOf (t : TargetWeightsTask) (net : NeuralNetwork) : ℚ :=
  (List.zipWith (fun a b => (a - b) ^ 2) net.cm t.target).sum

/-- `.mean()` of a flat array. -/
def meanQ (l : List ℚ) : ℚ := l.sum / (l.length : ℚ)

/-- `correct = (diff < (self.max_weight / 10.0)).mean()`. -/
def correctOf (t : TargetWeightsTask) (net : NeuralNetwork) : ℚ :=
  (((diffListOf t net).countP fun d => decide (d < t.max_weight / 10)) : ℚ) /
    ((diffListOf t net).length : ℚ)

/-- All quantities `evaluate` computes before the fitness branch (the
elementwise `diff` array is kept because the absdiff fitness is the mean of
`2*max_weight - diff`). -/
structure PreMetrics where
  diffList : List ℚ
  error : ℚ
  diff : ℚ
  diff_lsq : ℚ
  correct : ℚ
  err_nonlin : ℚ
  diff_nonlin : ℚ
  residue : ℚ
  deriving DecidableEq

/-- The metrics of `evaluate` given the `lstsq` solution and residue. -/
def mkPre (t : TargetWeightsTask) (net : NeuralNetwork) (xres : List ℚ × ℚ) : PreMetrics :=
  let diffLsq := List.zipWith (fun p v => |p - v|) (matVec t.locs xres.1) t.target
  { diffList := diffListOf t net
    error := errOf t net
    diff := meanQ (diffListOf t net)
    diff_lsq := meanQ diffLsq
    correct := correctOf t net
    err_nonlin := xres.2 - errOf t net
    diff_nonlin := meanQ diffLsq - meanQ (diffListOf t net)
    residue := xres.2 }

/-- Lines 55-67 of `evaluate`: the shape check, the metric computations and
the least-squares analysis, before the fitness branch. -/
def TargetWeightsTask.evaluatePre (t : TargetWeightsTask) (net : NeuralNetwork) :
    Except EvalError PreMetrics :=
  if (net.rows, net.cols) ≠ (t.targetN, t.targetN) then
    .error (.shapeMismatch (net.rows, net.cols) (t.targetN, t.targetN))
  else if t.locs.length ≠ t.target.length then .error .incompatibleDims
  else
    match lstsqModel t.locs t.target with
    | none => .error .indexErrorResidue
    | some xres => .ok (mkPre t net xres)

/-- The returned record of `evaluate`; `fitness` is real-valued because the
absdiff measure is `2 ** mean(2*max_weight - diff)`. -/
structure Metrics where
  fitness : ℝ
  error : ℚ
  diff : ℚ
  diff_lsq : ℚ
  correct : ℚ
  err_nonlin : ℚ
  diff_nonlin : ℚ
  residue : ℚ

/-- `evaluate`: the pre-fitness metrics followed by the fitness branch.  In
`absdiff` mode `fitness = 2 ** ((2*max_weight - diff).mean())`, in `sqerr`
mode `fitness = 1 / (1 + err)`, and for any other configured mode no branch
assigns `fitness`, so building the returned dict raises UnboundLocalError. -/
noncomputable def TargetWeightsTask.evaluate (t : TargetWeightsTask) (net : NeuralNetwork) :
    Except EvalError Metrics :=
  (t.evaluatePre net).bind fun p =>
    if t.fitnessmeasure = "absdiff" then
      .ok { fitness := (2 : ℝ) ^ ((meanQ (p.diffList.map fun d => 2 * t.max_weight - d) : ℚ) : ℝ)
            error := p.error, diff := p.diff, diff_lsq := p.diff_lsq, correct := p.correct
            err_nonlin := p.err_nonlin, diff_nonlin := p.diff_nonlin, residue := p.residue }
    else if t.fitnessmeasure = "sqerr" then
      .ok { fitness := ((1 / (1 + p.error) : ℚ) : ℝ)
            error := p.error, diff := p.diff, diff_lsq := p.diff_lsq, correct := p.correct
            err_nonlin := p.err_nonlin, diff_nonlin := p.diff_nonlin, residue := p.residue }
    else .error .unboundLocalFitness

/-- `solve`: `self.evaluate(network)['correct'] > 0.8` (an evaluation error
propagates). -/
noncomputable def TargetWeightsTask.solve (t : TargetWeightsTask) (net : NeuralNetwork) :
    Except EvalError Bool :=
  (t.evaluate net).map fun m => decide (m.correct > (0.8 : ℚ))

/-- The all-zero random stream (any stream with values in `[0, 1)` behaves
identically when `noise = 0`). -/
def zeroR : List Nat → ℚ := fun _ => 0

/-- The task of the concrete scenario: shape (2,2), default weight 1,
noise 0, max weight 3, no override rules, default absdiff mode. -/
def task22 : TargetWeightsTask := buildTask 1 [2, 2] 0 3 [] "absdiff" zeroR zeroR

/-- A 4x4 all-ones candidate. -/
def candOnes4 : NeuralNetwork := ⟨4, 4, List.replicate 16 1⟩

/-- A 4x4 all-zero candidate. -/
def candZeros4 : NeuralNetwork := ⟨4, 4, List.replicate 16 0⟩

/-- Pre-fitness metrics of `task22` against the all-ones candidate. -/
def pOnes22 : PreMetrics := ⟨List.replicate 16 0, 0, 0, 1, 1, 16, 1, 16⟩

/-- Pre-fitness metrics of `task22` against the all-zero candidate. -/
def pZeros22 : PreMetrics := ⟨List.replicate 16 1, 16, 1, 1, 0, 0, 0, 16⟩

/-- Metrics of `task22` against the all-ones candidate. -/
noncomputable def mOnes22 : Metrics := ⟨(2 : ℝ) ^ ((6 : ℚ) : ℝ), 0, 0, 1, 1, 16, 1, 16⟩

/-- Metrics of `task22` against the all-zero candidate. -/
noncomputable def mZeros22 : Metrics := ⟨(2 : ℝ) ^ ((5 : ℚ) : ℝ), 16, 1, 1, 0, 0, 0, 16⟩

/-- A task over substrate shape (1,3): its location table has two identical
constant columns, so the least-squares design matrix is rank-deficient. -/
def task13 : TargetWeightsTask := buildTask 0 [1, 3] 0 3 [] "absdiff" zeroR zeroR

/-- A shape-matching (3x3) candidate for `task13`. -/
def cand13 : NeuralNetwork := ⟨3, 3, List.replicate 9 0⟩

/-- A task configured with the unrecognized fitness mode "foo". -/
def taskFoo : TargetWeightsTask := buildTask 0 [2] 0 3 [] "foo" zeroR zeroR

/-- A task configured with the unrecognized fitness mode "bar". -/
def taskBar : TargetWeightsTask := buildTask 0 [2] 0 3 [] "bar" zeroR zeroR

/-- A shape-matching (2x2) candidate for the shape-[2] tasks. -/
def cand2 : NeuralNetwork := ⟨2, 2, List.replicate 4 0⟩

/-- Pre-fitness metrics of the shape-[2] tasks against `cand2`. -/
def pFoo2 : PreMetrics := ⟨List.replicate 4 0, 0, 0, 0, 1, 0, 0, 0⟩

/-- A constant override rule of value 5 with a non-callable (all-true) mask. -/
def rule5 : Rule := ⟨none, Sum.inr 5⟩

/-- A constant override rule of value 7 with a non-callable (all-true) mask. -/
def rule7 : Rule := ⟨none, Sum.inr 7⟩

/-- Shape-[2] task with the two everywhere-overlapping rules `rule5`,
`rule7` and `max_weight = 3`, so the winning value 7 gets clipped to 3. -/
def task6cex : TargetWeightsTask := buildTask 0 [2] 0 3 [rule5, rule7] "absdiff" zeroR zeroR

/-- A rule with a callable mask selecting connections whose first source
coordinate index is 0, constant value 2. -/
def ruleA : Rule := ⟨some fun _ idx => decide (idx.headD 0 = 0), Sum.inr 2⟩

/-- A rule with a non-callable (all-true) mask, constant value -1. -/
def ruleB : Rule := ⟨none, Sum.inr (-1)⟩

/-- Shape-[2] task with the overlapping rules `ruleA` then `ruleB`. -/
def task6w : TargetWeightsTask := buildTask 0 [2] 0 3 [ruleA, ruleB] "absdiff" zeroR zeroR


/-! ### Helper lemmas -/

/-- Pointwise form of `applyRule`. -/
theorem applyRule_apply (coords : List Nat → List ℚ) (cm : List Nat → ℚ) (r : Rule)
    (idx : List Nat) :
    applyRule coords cm r idx =
      if maskOf r coords idx then valsOf r coords cm idx else cm idx :=
  rfl

/-- Reading an in-range entry of a mapped range list. -/
theorem getD_map_range (n f : Nat) (g : Nat → ℚ) (hf : f < n) :
    ((List.range n).map g).getD f 0 = g f := by
  rw [List.getD_eq_getElem?_getD, List.getElem?_map, List.getElem?_range hf]
  rfl

/-- An in-range entry of a built target matrix: the clipped value of the
noise-or-rules tensor at the unflattened multi-index. -/
theorem buildTask_target_getD (dw : ℚ) (shape : List Nat) (noise mw : ℚ) (funcs : List Rule)
    (mode : String) (r1 r2 : List Nat → ℚ) (f : Nat)
    (hf : f < prodList shape * prodList shape) :
    (buildTask dw shape noise mw funcs mode r1 r2).target.getD f 0 =
      clipQ (if r1 (unflatten (shape ++ shape) f) < noise
             then r2 (unflatten (shape ++ shape) f) * mw * 2 - mw
             else List.foldl (applyRule (coordsVec (shape ++ shape))) (fun _ => dw) funcs
                    (unflatten (shape ++ shape) f)) (-mw) mw :=
  getD_map_range _ f _ hf

/-- With `noise = 0` and a first random stream drawn from `[0, 1)` the noise
mask is empty, so the built task does not depend on the random streams. -/
theorem buildTask_zero_noise (dw : ℚ) (shape : List Nat) (mw : ℚ) (funcs : List Rule)
    (mode : String) (r1 r2 s1 s2 : List Nat → ℚ) (h1 : ∀ i, 0 ≤ r1 i) (h2 : ∀ i, 0 ≤ s1 i) :
    buildTask dw shape 0 mw funcs mode r1 r2 = buildTask dw shape 0 mw funcs mode s1 s2 := by
  unfold buildTask
  simp only [TargetWeightsTask.mk.injEq]
  refine ⟨trivial, trivial, trivial, trivial, trivial, ?_⟩
  apply List.map_congr_left
  intro f _
  rw [if_neg (not_lt.mpr (h1 (unflatten (shape ++ shape) f))),
    if_neg (not_lt.mpr (h2 (unflatten (shape ++ shape) f)))]

/-- A successful `lstsq` observation needs strictly more rows than columns. -/
theorem lstsq_some_colsLt {A : List (List ℚ)} {b : List ℚ} {xr : List ℚ × ℚ}
    (h : lstsqModel A b = some xr) : colsOf A < A.length := by
  unfold lstsqModel at h
  by_cases hc : A.length ≤ colsOf A
  · rw [if_pos hc] at h
    simp at h
  · omega

/-- Inversion of a successful `evaluatePre`: the shape check passed, the
`lstsq` operand heights agree, the design matrix is strictly taller than
wide, and the metrics are `mkPre` of some `lstsq` observation. -/
theorem evaluatePre_ok_parts {t : TargetWeightsTask} {net : NeuralNetwork} {p : PreMetrics}
    (h : t.evaluatePre net = .ok p) :
    net.rows = t.targetN ∧ net.cols = t.targetN ∧ t.locs.length = t.target.length ∧
    colsOf t.locs < t.locs.length ∧
    ∃ xr, lstsqModel t.locs t.target = some xr ∧ p = mkPre t net xr := by
  unfold TargetWeightsTask.evaluatePre at h
  by_cases hsh : (net.rows, net.cols) ≠ (t.targetN, t.targetN)
  · rw [if_pos hsh] at h
    simp at h
  · rw [if_neg hsh] at h
    by_cases hlen : t.locs.length ≠ t.target.length
    · rw [if_pos hlen] at h
      simp at h
    · rw [if_neg hlen] at h
      cases hls : lstsqModel t.locs t.target with
      | none =>
        rw [hls] at h
        simp at h
      | some xr =>
        rw [hls] at h
        injection h with h2
        have hsh2 : (net.rows, net.cols) = (t.targetN, t.targetN) := not_ne_iff.mp hsh
        exact ⟨congrArg Prod.fst hsh2, congrArg Prod.snd hsh2, not_ne_iff.mp hlen,
          lstsq_some_colsLt hls, xr, rfl, h2.symm⟩

/-- Inversion of a successful `evaluate`: the pre-fitness metrics succeeded,
the scalar fields are carried over unchanged, and in absdiff mode the
fitness is `2 ** mean(2*max_weight - diff)` exactly as the code computes. -/
theorem evaluate_ok_parts {t : TargetWeightsTask} {net : NeuralNetwork} {m : Metrics}
    (h : t.evaluate net = .ok m) :
    ∃ p, t.evaluatePre net = .ok p ∧ m.error = p.error ∧ m.diff = p.diff ∧
      m.correct = p.correct ∧
      (t.fitnessmeasure = "absdiff" →
        m.fitness =
          (2 : ℝ) ^ ((meanQ (p.diffList.map fun d => 2 * t.max_weight - d) : ℚ) : ℝ)) := by
  unfold TargetWeightsTask.evaluate at h
  cases hp : t.evaluatePre net with
  | error e =>
    rw [hp] at h
    simp [Except.bind] at h
  | ok p =>
    rw [hp] at h
    simp only [Except.bind] at h
    by_cases hmode : t.fitnessmeasure = "absdiff"
    · rw [if_pos hmode] at h
      injection h with h2
      subst h2
      exact ⟨p, rfl, rfl, rfl, rfl, fun _ => rfl⟩
    · rw [if_neg hmode] at h
      by_cases hmode2 : t.fitnessmeasure = "sqerr"
      · rw [if_pos hmode2] at h
        injection h with h2
        subst h2
        exact ⟨p, rfl, rfl, rfl, rfl, fun habs => absurd habs hmode⟩
      · rw [if_neg hmode2] at h
        simp at h

/-- A successful `evaluatePre` in absdiff mode determines `evaluate`. -/
theorem evaluate_of_pre_absdiff {t : TargetWeightsTask} {net : NeuralNetwork} {p : PreMetrics}
    (hmode : t.fitnessmeasure = "absdiff") (h : t.evaluatePre net = .ok p) :
    t.evaluate net = .ok
      { fitness := (2 : ℝ) ^ ((meanQ (p.diffList.map fun d => 2 * t.max_weight - d) : ℚ) : ℝ)
        error := p.error, diff := p.diff, diff_lsq := p.diff_lsq, correct := p.correct
        err_nonlin := p.err_nonlin, diff_nonlin := p.diff_nonlin, residue := p.residue } := by
  unfold TargetWeightsTask.evaluate
  rw [h]
  simp only [Except.bind]
  rw [if_pos hmode]

/-- `evaluate` of `task22` on the all-ones candidate. -/
theorem eval22_ones : task22.evaluate candOnes4 = .ok mOnes22 := by
  have hp : task22.evaluatePre candOnes4 = .ok pOnes22 := by with_unfolding_all rfl
  rw [evaluate_of_pre_absdiff rfl hp,
    show (meanQ (pOnes22.diffList.map fun d => 2 * task22.max_weight - d) : ℚ) = 6 by
      with_unfolding_all rfl]
  rfl

/-- `evaluate` of `task22` on the all-zero candidate. -/
theorem eval22_zeros : task22.evaluate candZeros4 = .ok mZeros22 := by
  have hp : task22.evaluatePre candZeros4 = .ok pZeros22 := by with_unfolding_all rfl
  rw [evaluate_of_pre_absdiff rfl hp,
    show (meanQ (pZeros22.diffList.map fun d => 2 * task22.max_weight - d) : ℚ) = 5 by
      with_unfolding_all rfl]
  rfl

/-- `evaluate` of `task22` on the candidate identical to its target. -/
theorem eval22_self :
    task22.evaluate ⟨task22.targetN, task22.targetN, task22.target⟩ = .ok mOnes22 := by
  have hp : task22.evaluatePre ⟨task22.targetN, task22.targetN, task22.target⟩ =
      .ok pOnes22 := by with_unfolding_all rfl
  rw [evaluate_of_pre_absdiff rfl hp,
    show (meanQ (pOnes22.diffList.map fun d => 2 * task22.max_weight - d) : ℚ) = 6 by
      with_unfolding_all rfl]
  rfl

/-- Sum of an elementwise subtraction from a constant. -/
theorem sum_map_const_sub (c : ℚ) (l : List ℚ) :
    (l.map fun d => c - d).sum = l.length * c - l.sum := by
  induction l with
  | nil => simp
  | cons a tl ih =>
    simp only [List.map_cons, List.sum_cons, ih, List.length_cons, Nat.cast_add, Nat.cast_one]
    ring

/-- Mean of an elementwise subtraction from a constant, on a nonempty list. -/
theorem meanQ_map_const_sub (c : ℚ) (l : List ℚ) (h : l ≠ []) :
    meanQ (l.map fun d => c - d) = c - meanQ l := by
  have hl : (l.length : ℚ) ≠ 0 := by
    have : l.length ≠ 0 := fun h0 => h (List.eq_nil_of_length_eq_zero h0)
    exact_mod_cast this
  unfold meanQ
  rw [List.length_map, sum_map_const_sub]
  field_simp
  ring

/-- Elementwise absolute self-difference is the zero list. -/
theorem zipWith_abs_sub_self (l : List ℚ) :
    List.zipWith (fun a b => |a - b|) l l = List.replicate l.length 0 := by
  induction l with
  | nil => rfl
  | cons a tl ih => simp [List.zipWith_cons_cons, ih, List.replicate_succ]

/-- Elementwise squared self-difference is the zero list. -/
theorem zipWith_sq_sub_self (l : List ℚ) :
    List.zipWith (fun a b => (a - b) ^ 2) l l = List.replicate l.length 0 := by
  induction l with
  | nil => rfl
  | cons a tl ih => simp [List.zipWith_cons_cons, ih, List.replicate_succ]

/-- The sum of a zero list is zero. -/
theorem sum_replicate_zero (n : ℕ) : (List.replicate n (0:ℚ)).sum = 0 := by
  induction n with
  | zero => rfl
  | succ k ih => simp [List.replicate_succ, ih]

/-- Counting a predicate satisfied by `0` over a zero list gives the length. -/
theorem countP_replicate_zero (p : ℚ → Bool) (n : ℕ) (hp : p 0 = true) :
    (List.replicate n (0:ℚ)).countP p = n := by
  induction n with
  | zero => rfl
  | succ k ih => simp [List.replicate_succ, List.countP_cons, ih, hp]

/-! ### Claims -/

/-- C1: for a task built with substrate shape (2,2), default weight 1,
noise 0 (under any admissible random draws), max weight 3 and no override
rules, the target is the 4x4 all-ones matrix; evaluating the all-ones
candidate returns error 0, diff 0, correct 1 and fitness 2^6 (default
absdiff mode); evaluating the all-zero candidate returns diff 1, error 16
and correct 0. -/
theorem c1_concrete_scenario (r1 r2 : List Nat → ℚ) (hr : ∀ i, 0 ≤ r1 i) :
    TargetWeightsTask.init 1 [2, 2] 0 3 [] "absdiff" r1 r2 = .ok task22 ∧
    task22.targetN = 4 ∧ task22.target = List.replicate 16 1 ∧
    (∃ m, task22.evaluate candOnes4 = .ok m ∧
      m.error = 0 ∧ m.diff = 0 ∧ m.correct = 1 ∧ m.fitness = 2 ^ (6 : ℕ)) ∧
    (∃ m, task22.evaluate candZeros4 = .ok m ∧
      m.diff = 1 ∧ m.error = 16 ∧ m.correct = 0) := by
  refine ⟨?_, by with_unfolding_all rfl, by with_unfolding_all rfl,
    ⟨mOnes22, eval22_ones, rfl, rfl, rfl, ?_⟩, ⟨mZeros22, eval22_zeros, rfl, rfl, rfl⟩⟩
  · unfold TargetWeightsTask.init
    rw [if_pos (by norm_num : (0:ℚ) ≤ 0 ∧ (0:ℚ) ≤ 1)]
    exact congrArg Except.ok
      (buildTask_zero_noise 1 [2, 2] 3 [] "absdiff" r1 r2 zeroR zeroR hr fun _ => le_refl 0)
  · show (2 : ℝ) ^ (((6 : ℚ)) : ℝ) = 2 ^ (6 : ℕ)
    rw [show ((6 : ℚ) : ℝ) = ((6 : ℕ) : ℝ) by norm_num]
    exact Real.rpow_natCast 2 6

/-- C1 witness: the theorem applied to the all-zero draw streams. -/
theorem c1_witness :
    (∀ i, 0 ≤ zeroR i) ∧
    (TargetWeightsTask.init 1 [2, 2] 0 3 [] "absdiff" zeroR zeroR = .ok task22 ∧
      task22.targetN = 4 ∧ task22.target = List.replicate 16 1 ∧
      (∃ m, task22.evaluate candOnes4 = .ok m ∧
        m.error = 0 ∧ m.diff = 0 ∧ m.correct = 1 ∧ m.fitness = 2 ^ (6 : ℕ)) ∧
      (∃ m, task22.evaluate candZeros4 = .ok m ∧
        m.diff = 1 ∧ m.error = 16 ∧ m.correct = 0)) :=
  ⟨fun _ => le_refl 0, c1_concrete_scenario zeroR zeroR fun _ => le_refl 0⟩

/-- C2: in absdiff mode, whenever `evaluate` returns a record, its fitness
equals 2 raised to (2 * max_weight - mean(diff)), where diff is the
elementwise absolute difference between candidate and target; the code
computes 2 raised to mean(2 * max_weight - diff), and the two exponents
agree because the mean is taken over a nonempty array.  (For shape-matching
candidates on which `evaluate` raises instead of returning — see C10 — no
record is produced.) -/
theorem c2_absdiff_fitness (t : TargetWeightsTask) (net : NeuralNetwork) (m : Metrics)
    (hT : t.target.length = t.targetN * t.targetN)
    (hN : net.cm.length = net.rows * net.cols)
    (hmode : t.fitnessmeasure = "absdiff")
    (h : t.evaluate net = .ok m) :
    m.fitness = (2 : ℝ) ^ ((2 * t.max_weight - meanQ (diffListOf t net) : ℚ) : ℝ) := by
  obtain ⟨p, hp, _, _, _, hfit⟩ := evaluate_ok_parts h
  obtain ⟨hr, hc, hlen, hlt, xr, hls, hpeq⟩ := evaluatePre_ok_parts hp
  have hdl : p.diffList = diffListOf t net := by rw [hpeq]; rfl
  have hpos : 0 < t.target.length := by omega
  have hlen2 : (diffListOf t net).length = t.target.length := by
    unfold diffListOf
    rw [List.length_zipWith, hN, hr, hc, ← hT, min_self]
  have hne : diffListOf t net ≠ [] := List.length_pos.mp (by rw [hlen2]; exact hpos)
  rw [hfit hmode, hdl, meanQ_map_const_sub _ _ hne]

/-- C2 witness: the theorem applied to `task22` and the all-zero candidate
(diff mean 1, max weight 3, fitness 2^5). -/
theorem c2_witness :
    task22.target.length = task22.targetN * task22.targetN ∧
    candZeros4.cm.length = candZeros4.rows * candZeros4.cols ∧
    task22.fitnessmeasure = "absdiff" ∧
    task22.evaluate candZeros4 = .ok mZeros22 ∧
    mZeros22.fitness =
      (2 : ℝ) ^ ((2 * task22.max_weight - meanQ (diffListOf task22 candZeros4) : ℚ) : ℝ) :=
  ⟨by with_unfolding_all rfl, by with_unfolding_all rfl, rfl, eval22_zeros,
    c2_absdiff_fitness task22 candZeros4 mZeros22 (by with_unfolding_all rfl)
      (by with_unfolding_all rfl) rfl eval22_zeros⟩

/-- C5: for positive max weight, any shape, default weight, admissible
noise, override rules and random draws, every entry of a constructed target
matrix lies in [-max_weight, max_weight] (the final clip bounds default,
rule-assigned and noise-injected values alike). -/
theorem c5_clip_bounds (dw : ℚ) (shape : List Nat) (noise mw : ℚ) (funcs : List Rule)
    (mode : String) (r1 r2 : List Nat → ℚ) (t : TargetWeightsTask)
    (hmw : 0 < mw) (hn0 : 0 ≤ noise) (hn1 : noise ≤ 1)
    (h : TargetWeightsTask.init dw shape noise mw funcs mode r1 r2 = .ok t)
    (q : ℚ) (hq : q ∈ t.target) : -mw ≤ q ∧ q ≤ mw := by
  unfold TargetWeightsTask.init at h
  rw [if_pos ⟨hn0, hn1⟩] at h
  injection h with h2
  subst h2
  simp only [buildTask, List.mem_map] at hq
  obtain ⟨f, _, rfl⟩ := hq
  unfold clipQ
  constructor
  · exact le_min (by linarith) (le_max_right _ _)
  · exact min_le_left _ _

/-- C5 witness: the theorem applied to `task22` and its entry 1. -/
theorem c5_witness :
    (0:ℚ) < 3 ∧ (1:ℚ) ∈ task22.target ∧ -3 ≤ (1:ℚ) ∧ (1:ℚ) ≤ 3 :=
  ⟨by norm_num, of_decide_eq_true (by with_unfolding_all rfl),
    (c5_clip_bounds 1 [2, 2] 0 3 [] "absdiff" zeroR zeroR task22 (by norm_num) le_rfl
      (by norm_num) (by with_unfolding_all rfl) 1
      (of_decide_eq_true (by with_unfolding_all rfl))).1,
    (c5_clip_bounds 1 [2, 2] 0 3 [] "absdiff" zeroR zeroR task22 (by norm_num) le_rfl
      (by norm_num) (by with_unfolding_all rfl) 1
      (of_decide_eq_true (by with_unfolding_all rfl))).2⟩

/-- C7: whenever `evaluate` on the candidate identical to the stored target
returns a record (and max_weight is positive), that record has error 0,
diff 0 and correct 1. -/
theorem c7_exact_match (t : TargetWeightsTask) (m : Metrics) (hmw : 0 < t.max_weight)
    (h : t.evaluate ⟨t.targetN, t.targetN, t.target⟩ = .ok m) :
    m.error = 0 ∧ m.diff = 0 ∧ m.correct = 1 := by
  obtain ⟨p, hp, he, hd, hc, _⟩ := evaluate_ok_parts h
  obtain ⟨_, _, hlen, hlt, xr, hls, hpeq⟩ := evaluatePre_ok_parts hp
  have hpos : 0 < t.target.length := by omega
  have hdl : diffListOf t ⟨t.targetN, t.targetN, t.target⟩ =
      List.replicate t.target.length 0 := zipWith_abs_sub_self t.target
  refine ⟨?_, ?_, ?_⟩
  · rw [he, hpeq]
    show errOf t ⟨t.targetN, t.targetN, t.target⟩ = 0
    show (List.zipWith (fun a b => (a - b) ^ 2) t.target t.target).sum = 0
    rw [zipWith_sq_sub_self, sum_replicate_zero]
  · rw [hd, hpeq]
    show meanQ (diffListOf t ⟨t.targetN, t.targetN, t.target⟩) = 0
    rw [hdl]
    unfold meanQ
    rw [sum_replicate_zero, zero_div]
  · rw [hc, hpeq]
    show correctOf t ⟨t.targetN, t.targetN, t.target⟩ = 1
    unfold correctOf
    rw [hdl, countP_replicate_zero _ _ (decide_eq_true (div_pos hmw (by norm_num))),
      List.length_replicate]
    exact div_self (Nat.cast_ne_zero.mpr (by omega))

/-- C7 witness: the theorem applied to `task22` and its own target. -/
theorem c7_witness :
    0 < task22.max_weight ∧
    task22.evaluate ⟨task22.targetN, task22.targetN, task22.target⟩ = .ok mOnes22 ∧
    mOnes22.error = 0 ∧ mOnes22.diff = 0 ∧ mOnes22.correct = 1 :=
  ⟨of_decide_eq_true (by with_unfolding_all rfl), eval22_self,
    c7_exact_match task22 mOnes22 (of_decide_eq_true (by with_unfolding_all rfl)) eval22_self⟩

/-- C8: a candidate whose dimensions differ from the target's makes
`evaluate` fail with the shape-mismatch error carrying both the candidate's
and the target's shapes; the error is raised by the first check of
`evaluate`, before any metric is computed, and `evaluate` is a pure
function of the task, so the stored target state is unchanged. -/
theorem c8_shape_mismatch (t : TargetWeightsTask) (net : NeuralNetwork)
    (h : (net.rows, net.cols) ≠ (t.targetN, t.targetN)) :
    t.evaluate net = .error (.shapeMismatch (net.rows, net.cols) (t.targetN, t.targetN)) := by
  unfold TargetWeightsTask.evaluate TargetWeightsTask.evaluatePre
  rw [if_pos h]
  rfl

/-- C8 witness: the theorem applied to `task22` and a 2x3 candidate. -/
theorem c8_witness :
    ((2 : Nat), (3 : Nat)) ≠ (task22.targetN, task22.targetN) ∧
    task22.evaluate ⟨2, 3, []⟩ =
      .error (.shapeMismatch (2, 3) (task22.targetN, task22.targetN)) :=
  ⟨of_decide_eq_true (by with_unfolding_all rfl),
    c8_shape_mismatch task22 ⟨2, 3, []⟩ (of_decide_eq_true (by with_unfolding_all rfl))⟩

/-- C9: when `evaluate` returns a record, `solve` returns true exactly when
the record's correct field strictly exceeds 0.8, and correct equal to 0.8
exactly yields false. -/
theorem c9_solve_threshold (t : TargetWeightsTask) (net : NeuralNetwork) (m : Metrics)
    (h : t.evaluate net = .ok m) :
    (t.solve net = .ok true ↔ (0.8 : ℚ) < m.correct) ∧
    (m.correct = (0.8 : ℚ) → t.solve net = .ok false) := by
  have hs : t.solve net = .ok (decide ((0.8 : ℚ) < m.correct)) := by
    unfold TargetWeightsTask.solve
    rw [h]
    rfl
  constructor
  · rw [hs]
    constructor
    · intro hh
      injection hh with hb
      exact of_decide_eq_true hb
    · intro hh
      rw [decide_eq_true hh]
  · intro hc
    rw [hs, hc, decide_eq_false (lt_irrefl (0.8 : ℚ))]

/-- C9 witness: `task22` on the all-ones candidate has correct 1 > 0.8 and
solves. -/
theorem c9_witness :
    task22.evaluate candOnes4 = .ok mOnes22 ∧ task22.solve candOnes4 = .ok true :=
  ⟨eval22_ones,
    (c9_solve_threshold task22 candOnes4 mOnes22 eval22_ones).1.mpr
      (of_decide_eq_true (by with_unfolding_all rfl))⟩

/-- C10: for substrate shape (1,3) the location table is rank-deficient
(the vector (1, 0, -1, 0) annihilates every row, since the two size-1 axes
contribute identical constant -1 columns), so the modelled `lstsq` residual
array is empty and `evaluate` fails with the unguarded `res[0]` index error
even on a shape-matching candidate. -/
theorem c10_rank_deficient_index_error :
    TargetWeightsTask.init 0 [1, 3] 0 3 [] "absdiff" zeroR zeroR = .ok task13 ∧
    (cand13.rows, cand13.cols) = (task13.targetN, task13.targetN) ∧
    (task13.locs.map fun row => dotQ row [1, 0, -1, 0]) = List.replicate 9 0 ∧
    [1, 0, -1, 0] ≠ List.replicate 4 (0:ℚ) ∧
    lstsqModel task13.locs task13.target = none ∧
    task13.evaluate cand13 = .error .indexErrorResidue := by
  refine ⟨by with_unfolding_all rfl, by with_unfolding_all rfl, by with_unfolding_all rfl,
    of_decide_eq_true (by with_unfolding_all rfl), by with_unfolding_all rfl, ?_⟩
  have hp : task13.evaluatePre cand13 = .error .indexErrorResidue := by with_unfolding_all rfl
  unfold TargetWeightsTask.evaluate
  rw [hp]
  rfl

/-- C3 counterexample: two tasks differing only in their (unrecognized)
fitness mode produce the identical error value from `evaluate` — the
unbound-local failure for the internal `fitness` variable, which carries no
data — so the error cannot surface the offending mode, contrary to the
claim; there is no dedicated unsupported-mode error in the code. -/
theorem c3_counterexample :
    taskFoo.fitnessmeasure = "foo" ∧ taskBar.fitnessmeasure = "bar" ∧
    taskFoo.evaluate cand2 = .error .unboundLocalFitness ∧
    taskBar.evaluate cand2 = .error .unboundLocalFitness := by
  have hpF : taskFoo.evaluatePre cand2 = .ok pFoo2 := by with_unfolding_all rfl
  have hpB : taskBar.evaluatePre cand2 = .ok pFoo2 := by with_unfolding_all rfl
  refine ⟨rfl, rfl, ?_, ?_⟩
  · unfold TargetWeightsTask.evaluate
    rw [hpF]
    simp only [Except.bind]
    rw [if_neg (of_decide_eq_true (by with_unfolding_all rfl)),
      if_neg (of_decide_eq_true (by with_unfolding_all rfl))]
  · unfold TargetWeightsTask.evaluate
    rw [hpB]
    simp only [Except.bind]
    rw [if_neg (of_decide_eq_true (by with_unfolding_all rfl)),
      if_neg (of_decide_eq_true (by with_unfolding_all rfl))]

/-- C3 amended: with a fitness mode other than "absdiff" and "sqerr",
`evaluate` never returns a record; whenever the pre-fitness metrics succeed
(in particular on shape-matching candidates that pass the least-squares
step) the call fails with the unbound-local error for the `fitness`
variable — an error raised at evaluation time that does not carry the
offending mode — and construction with the same mode still succeeds for any
admissible noise, so nothing silently defaults to a measure. -/
theorem c3_amended_unbound_local (t : TargetWeightsTask) (net : NeuralNetwork)
    (h1 : t.fitnessmeasure ≠ "absdiff") (h2 : t.fitnessmeasure ≠ "sqerr") :
    (∀ m, t.evaluate net ≠ .ok m) ∧
    (∀ p, t.evaluatePre net = .ok p → t.evaluate net = .error .unboundLocalFitness) ∧
    (∀ dw shape noise mw funcs r1 r2, 0 ≤ noise → noise ≤ 1 →
      TargetWeightsTask.init dw shape noise mw funcs t.fitnessmeasure r1 r2 =
        .ok (buildTask dw shape noise mw funcs t.fitnessmeasure r1 r2)) := by
  have key : ∀ p, t.evaluatePre net = .ok p →
      t.evaluate net = .error .unboundLocalFitness := by
    intro p hp
    unfold TargetWeightsTask.evaluate
    rw [hp]
    simp only [Except.bind]
    rw [if_neg h1, if_neg h2]
  refine ⟨?_, key, ?_⟩
  · intro m hm
    cases hpc : t.evaluatePre net with
    | error e =>
      unfold TargetWeightsTask.evaluate at hm
      rw [hpc] at hm
      simp [Except.bind] at hm
    | ok p =>
      rw [key p hpc] at hm
      simp at hm
  · intro dw shape noise mw funcs r1 r2 hn0 hn1
    unfold TargetWeightsTask.init
    rw [if_pos ⟨hn0, hn1⟩]

/-- C3 witness: the amended theorem applied to the mode-"foo" task and a
shape-matching candidate whose pre-fitness metrics succeed. -/
theorem c3_witness :
    taskFoo.fitnessmeasure ≠ "absdiff" ∧ taskFoo.fitnessmeasure ≠ "sqerr" ∧
    taskFoo.evaluatePre cand2 = .ok pFoo2 ∧
    taskFoo.evaluate cand2 = .error .unboundLocalFitness :=
  ⟨of_decide_eq_true (by with_unfolding_all rfl),
    of_decide_eq_true (by with_unfolding_all rfl),
    by with_unfolding_all rfl,
    (c3_amended_unbound_local taskFoo cand2 (of_decide_eq_true (by with_unfolding_all rfl))
      (of_decide_eq_true (by with_unfolding_all rfl))).2.1 pFoo2
      (by with_unfolding_all rfl)⟩

/-- C4 counterexample: construction with noise 2 fails with the noise-range
error, but the failed instance has already assigned its `substrate_shape`,
`max_weight` and `fitnessmeasure` attributes (the first three statements of
`__init__` precede the check), so "the failed instance retains no
initialized fields" is false. -/
theorem c4_counterexample :
    TargetWeightsTask.init 0 [3, 3] 2 3 [] "absdiff" zeroR zeroR =
      .error ("Noise value has to be between 0 and 1.", preCheckState [3, 3] 3 "absdiff") ∧
    (preCheckState [3, 3] 3 "absdiff").substrate_shape = some [3, 3] ∧
    (preCheckState [3, 3] 3 "absdiff").max_weight = some 3 ∧
    (preCheckState [3, 3] 3 "absdiff").fitnessmeasure = some "absdiff" ∧
    some [3, 3] ≠ (none : Option (List Nat)) := by
  refine ⟨?_, rfl, rfl, rfl, by simp⟩
  unfold TargetWeightsTask.init
  rw [if_neg (by norm_num)]

/-- C4 amended: for every noise value outside [0, 1], construction fails
immediately with the noise-range error, before the coordinate system,
location table or target matrix are computed (those fields of the partial
state are unset) — but after the three configuration attributes
`substrate_shape`, `max_weight` and `fitnessmeasure` have been assigned on
the failed instance. -/
theorem c4_amended_partial_state (dw : ℚ) (shape : List Nat) (noise mw : ℚ)
    (funcs : List Rule) (mode : String) (r1 r2 : List Nat → ℚ)
    (h : ¬(0 ≤ noise ∧ noise ≤ 1)) :
    TargetWeightsTask.init dw shape noise mw funcs mode r1 r2 =
      .error ("Noise value has to be between 0 and 1.", preCheckState shape mw mode) ∧
    (preCheckState shape mw mode).locs = none ∧
    (preCheckState shape mw mode).target = none ∧
    (preCheckState shape mw mode).substrate_shape = some shape ∧
    (preCheckState shape mw mode).max_weight = some mw ∧
    (preCheckState shape mw mode).fitnessmeasure = some mode := by
  refine ⟨?_, rfl, rfl, rfl, rfl, rfl⟩
  unfold TargetWeightsTask.init
  rw [if_neg h]

/-- C4 witness: the amended theorem applied at noise 2. -/
theorem c4_witness :
    TargetWeightsTask.init 0 [3, 3] 2 3 [] "absdiff" zeroR zeroR =
      .error ("Noise value has to be between 0 and 1.", preCheckState [3, 3] 3 "absdiff") ∧
    (preCheckState [3, 3] 3 "absdiff").locs = none ∧
    (preCheckState [3, 3] 3 "absdiff").target = none :=
  ⟨(c4_amended_partial_state 0 [3, 3] 2 3 [] "absdiff" zeroR zeroR (by norm_num)).1,
    (c4_amended_partial_state 0 [3, 3] 2 3 [] "absdiff" zeroR zeroR (by norm_num)).2.1,
    (c4_amended_partial_state 0 [3, 3] 2 3 [] "absdiff" zeroR zeroR (by norm_num)).2.2.1⟩

/-- C6 counterexample: two everywhere-overlapping constant rules of values
5 and then 7, with max weight 3 and zero noise: at the intersecting
position 0 the constructed target holds 3 (the later rule's value clipped
to [-3, 3]), not the later rule's value 7 — construction ends with a clip,
so the claim as stated fails. -/
theorem c6_counterexample :
    TargetWeightsTask.init 0 [2] 0 3 [rule5, rule7] "absdiff" zeroR zeroR = .ok task6cex ∧
    maskOf rule5 (coordsVec ([2] ++ [2])) (unflatten ([2] ++ [2]) 0) = true ∧
    maskOf rule7 (coordsVec ([2] ++ [2])) (unflatten ([2] ++ [2]) 0) = true ∧
    valsOf rule7 (coordsVec ([2] ++ [2]))
      (applyRule (coordsVec ([2] ++ [2])) (fun _ => (0:ℚ)) rule5)
      (unflatten ([2] ++ [2]) 0) = 7 ∧
    task6cex.target.getD 0 0 = 3 ∧ (3 : ℚ) ≠ 7 :=
  ⟨by with_unfolding_all rfl, by with_unfolding_all rfl, by with_unfolding_all rfl,
    by with_unfolding_all rfl, by with_unfolding_all rfl, by norm_num⟩

/-- C6 amended: override rules are applied in list order as masked
assignments; with zero noise, a position in the intersection of two rules'
masks holds the later rule's value (as produced from the tensor state after
the earlier rule) clipped to [-max_weight, max_weight], and a position
selected by neither rule holds the default weight clipped to the same
interval. -/
theorem c6_amended_overlay_clipped (dw mw : ℚ) (shape : List Nat) (mode : String)
    (R1 R2 : Rule) (r1 r2 : List Nat → ℚ) (t : TargetWeightsTask) (f : Nat)
    (hr : ∀ i, 0 ≤ r1 i)
    (h : TargetWeightsTask.init dw shape 0 mw [R1, R2] mode r1 r2 = .ok t)
    (hf : f < prodList shape * prodList shape) :
    (maskOf R1 (coordsVec (shape ++ shape)) (unflatten (shape ++ shape) f) = true →
      maskOf R2 (coordsVec (shape ++ shape)) (unflatten (shape ++ shape) f) = true →
      t.target.getD f 0 =
        clipQ (valsOf R2 (coordsVec (shape ++ shape))
          (applyRule (coordsVec (shape ++ shape)) (fun _ => dw) R1)
          (unflatten (shape ++ shape) f)) (-mw) mw) ∧
    (maskOf R1 (coordsVec (shape ++ shape)) (unflatten (shape ++ shape) f) = false →
      maskOf R2 (coordsVec (shape ++ shape)) (unflatten (shape ++ shape) f) = false →
      t.target.getD f 0 = clipQ dw (-mw) mw) := by
  unfold TargetWeightsTask.init at h
  rw [if_pos (by norm_num : (0:ℚ) ≤ 0 ∧ (0:ℚ) ≤ 1)] at h
  injection h with h2
  subst h2
  rw [buildTask_target_getD dw shape 0 mw [R1, R2] mode r1 r2 f hf,
    if_neg (not_lt.mpr (hr (unflatten (shape ++ shape) f)))]
  simp only [List.foldl_cons, List.foldl_nil]
  constructor
  · intro hm1 hm2
    rw [applyRule_apply, if_pos hm2]
  · intro hm1 hm2
    rw [applyRule_apply, if_neg (ne_true_of_eq_false hm2), applyRule_apply,
      if_neg (ne_true_of_eq_false hm1)]

/-- C6 witness: the amended theorem applied to `task6w` (a callable-mask
rule of value 2 followed by an all-true rule of value -1) at the
intersecting position 0. -/
theorem c6_witness :
    TargetWeightsTask.init 0 [2] 0 3 [ruleA, ruleB] "absdiff" zeroR zeroR = .ok task6w ∧
    maskOf ruleA (coordsVec ([2] ++ [2])) (unflatten ([2] ++ [2]) 0) = true ∧
    maskOf ruleB (coordsVec ([2] ++ [2])) (unflatten ([2] ++ [2]) 0) = true ∧
    task6w.target.getD 0 0 =
      clipQ (valsOf ruleB (coordsVec ([2] ++ [2]))
        (applyRule (coordsVec ([2] ++ [2])) (fun _ => (0:ℚ)) ruleA)
        (unflatten ([2] ++ [2]) 0)) (-3) 3 :=
  ⟨by with_unfolding_all rfl, by with_unfolding_all rfl, by with_unfolding_all rfl,
    (c6_amended_overlay_clipped 0 3 [2] "absdiff" ruleA ruleB zeroR zeroR task6w 0
      (fun _ => le_refl 0) (by with_unfolding_all rfl)
      (of_decide_eq_true (by with_unfolding_all rfl))).1
      (by with_unfolding_all rfl) (by with_unfolding_all rfl)⟩
